import Mathlib

/-!
Verification of the mahabus-backend trip ranking and pricing engine.

The TypeScript source is shallowly embedded in Lean:

* JavaScript numbers are modelled by `ℚ`.  The one place where IEEE special
  values are observable — division of a booking count by a seat capacity that
  may be zero — is modelled explicitly by `JsNum`, which carries `nan`,
  `posInf` and `negInf` alongside finite rationals, with the IEEE comparison
  semantics (`NaN` compares false against everything).
* `Date` values are rationals (milliseconds since epoch); the current instant
  `now` and the environment-dependent `Date.prototype.getHours` local-hour
  extraction `localHour` are explicit parameters of every function that uses
  them in the source.
* `Math.round` is `jsRound`: round half towards positive infinity.
* Optional / defaulted configuration fields are `Option` fields read through
  `Option.getD` with the source's default values; this matches the
  `{ ...defaultConfig, ...config }` merge because the destructuring defaults
  in the source coincide with `defaultConfig`.
* `Array.prototype.sort` (stable in ECMAScript 2019+) is modelled by the
  stable insertion sort `iSort` over the boolean strict-precedence relation
  extracted from the source comparator.
-/

namespace MahaBus

/-- JavaScript number restricted to the values reachable in this code base:
finite rationals plus the IEEE special values produced by dividing by a zero
seat count. -/
inductive JsNum where
  | nan
  | posInf
  | negInf
  | val (q : ℚ)
  deriving DecidableEq

namespace JsNum

/-- `x > c` for a `JsNum` against a finite constant (IEEE: `NaN` compares
false, `+∞` greater than every finite value). -/
def gtQ : JsNum → ℚ → Bool
  | nan, _ => false
  | posInf, _ => true
  | negInf, _ => false
  | val q, c => decide (c < q)

/-- `x < c` against a finite constant. -/
def ltQ : JsNum → ℚ → Bool
  | nan, _ => false
  | posInf, _ => false
  | negInf, _ => true
  | val q, c => decide (q < c)

/-- `x >= c` against a finite constant. -/
def geQ : JsNum → ℚ → Bool
  | nan, _ => false
  | posInf, _ => true
  | negInf, _ => false
  | val q, c => decide (c ≤ q)

/-- Strict `>` between two `JsNum`s (used by the sort comparators through the
sign of a subtraction; `NaN` operands cannot reach those comparators). -/
def gtN : JsNum → JsNum → Bool
  | nan, _ => false
  | _, nan => false
  | posInf, posInf => false
  | posInf, _ => true
  | _, posInf => false
  | negInf, _ => false
  | val _, negInf => true
  | val q, val r => decide (r < q)

/-- Multiplication of a `JsNum` by a finite rational constant. -/
def mulQ : JsNum → ℚ → JsNum
  | nan, _ => nan
  | posInf, c => if c = 0 then nan else if 0 < c then posInf else negInf
  | negInf, c => if c = 0 then nan else if 0 < c then negInf else posInf
  | val q, c => val (q * c)

/-- Division of a `JsNum` by a nonzero finite rational constant. -/
def divQ : JsNum → ℚ → JsNum
  | nan, _ => nan
  | posInf, c => if c = 0 then nan else if 0 < c then posInf else negInf
  | negInf, c => if c = 0 then nan else if 0 < c then negInf else posInf
  | val q, c => val (q / c)

/-- `Math.min(x, c)` against a finite constant (`NaN` propagates). -/
def minQ : JsNum → ℚ → JsNum
  | nan, _ => nan
  | posInf, c => val c
  | negInf, _ => negInf
  | val q, c => val (min q c)

/-- Addition of two `JsNum`s. -/
def add : JsNum → JsNum → JsNum
  | nan, _ => nan
  | _, nan => nan
  | posInf, negInf => nan
  | negInf, posInf => nan
  | posInf, _ => posInf
  | _, posInf => posInf
  | negInf, _ => negInf
  | _, negInf => negInf
  | val q, val r => val (q + r)

/-- The finite value of a `JsNum` (junk value `0` on the special values; only
ever applied to finite numbers in the theorems below). -/
def qOf : JsNum → ℚ
  | val q => q
  | _ => 0

end JsNum

/-- `a / b` for a nonnegative integer numerator and denominator, with the
JavaScript semantics at a zero denominator: `0/0 = NaN`, `a/0 = +∞` for
`a > 0`. -/
def jsDivNN (a b : ℕ) : JsNum :=
  if b = 0 then (if a = 0 then .nan else .posInf) else .val ((a : ℚ) / b)

/-- `Math.round`: round half towards positive infinity. -/
def jsRound (x : ℚ) : ℤ := ⌊x + 1/2⌋

/-! ## src/algorithms/pricing.ts -/

/-- Prisma `TripStatus`. -/
inductive TripStatus where
  | SCHEDULED
  | IN_PROGRESS
  | COMPLETED
  | CANCELLED
  deriving DecidableEq

/-- `PricingTrip` from `pricing.ts`.  The nested `bus.totalSeats` and
`_count.bookings` projections are flattened to the `totalSeats` and
`bookings` fields; timestamps are milliseconds since epoch. -/
structure PricingTrip where
  id : String
  departureTime : ℚ
  arrivalTime : ℚ
  price : ℚ
  originalPrice : Option ℚ
  status : TripStatus
  availableSeats : ℕ
  totalSeats : ℕ
  bookings : ℕ
  createdAt : ℚ
  deriving DecidableEq

/-- `PricingConfig`; all fields optional, `none` meaning absent.  A peak-hour
interval is a `(start, end)` pair of hours. -/
structure PricingConfig where
  earlyBirdDiscount : Option ℚ := none
  lastMinuteMultiplier : Option ℚ := none
  peakHourMultiplier : Option ℚ := none
  highDemandMultiplier : Option ℚ := none
  lowDemandDiscount : Option ℚ := none
  earlyBirdThreshold : Option ℚ := none
  lastMinuteThreshold : Option ℚ := none
  maxPriceIncrease : Option ℚ := none
  maxPriceDecrease : Option ℚ := none
  peakHours : Option (List (ℤ × ℤ)) := none
  deriving DecidableEq

/-- The `peakHours` entry of `defaultConfig`: morning peak 7–10, evening peak
17–20. -/
def defaultPeakHours : List (ℤ × ℤ) := [(7, 10), (17, 20)]

/-- `getTimeToDepatureFactor` (sic).  `now` is the current instant in
milliseconds. -/
def getTimeToDepatureFactor (now : ℚ) (trip : PricingTrip) (config : PricingConfig) : ℚ :=
  let hoursUntilDeparture := (trip.departureTime - now) / (1000 * 60 * 60)
  let earlyBirdDiscount := config.earlyBirdDiscount.getD (85/100)
  let earlyBirdThreshold := config.earlyBirdThreshold.getD 48
  let lastMinuteMultiplier := config.lastMinuteMultiplier.getD (125/100)
  let lastMinuteThreshold := config.lastMinuteThreshold.getD 6
  if earlyBirdThreshold < hoursUntilDeparture then earlyBirdDiscount
  else if hoursUntilDeparture < lastMinuteThreshold then lastMinuteMultiplier
  else 1

/-- `getOccupancyFactor`.  The occupancy rate `bookings / totalSeats` is a
JavaScript division and may be `NaN` or `+∞` when `totalSeats = 0`. -/
def getOccupancyFactor (trip : PricingTrip) (config : PricingConfig) : ℚ :=
  let occupancyRate := jsDivNN trip.bookings trip.totalSeats
  let highDemandMultiplier := config.highDemandMultiplier.getD (13/10)
  let lowDemandDiscount := config.lowDemandDiscount.getD (8/10)
  if occupancyRate.gtQ (7/10) then highDemandMultiplier
  else if occupancyRate.ltQ (3/10) then lowDemandDiscount
  else 1

/-- `getPeakHourFactor`.  `localHour` is the environment's
`Date.prototype.getHours`, mapping an epoch instant to its local hour. -/
def getPeakHourFactor (localHour : ℚ → ℤ) (trip : PricingTrip) (config : PricingConfig) : ℚ :=
  let departureHour := localHour trip.departureTime
  let peakHours := config.peakHours.getD defaultPeakHours
  let peakHourMultiplier := config.peakHourMultiplier.getD (115/100)
  if peakHours.any (fun peak => decide (peak.1 ≤ departureHour) && decide (departureHour ≤ peak.2))
  then peakHourMultiplier else 1

/-- `getBookingVelocityFactor`. -/
def getBookingVelocityFactor (now : ℚ) (trip : PricingTrip) : ℚ :=
  let tripAge := (now - trip.createdAt) / (1000 * 60 * 60)
  let occupancyRate := jsDivNN trip.bookings trip.totalSeats
  if tripAge < 24 ∧ occupancyRate.gtQ (2/10) = true then 11/10
  else if 72 < tripAge ∧ occupancyRate.ltQ (2/10) = true then 95/100
  else 1

/-- `trip.originalPrice || trip.price`: a stored original price of `0` is
falsy and falls back to the current price. -/
def basePrice (trip : PricingTrip) : ℚ :=
  match trip.originalPrice with
  | some p => if p = 0 then trip.price else p
  | none => trip.price

/-- `calculateDynamicPrice`. -/
def calculateDynamicPrice (now : ℚ) (localHour : ℚ → ℤ)
    (trip : PricingTrip) (config : PricingConfig) : ℚ :=
  let b := basePrice trip
  let timeFactor := getTimeToDepatureFactor now trip config
  let occupancyFactor := getOccupancyFactor trip config
  let peakHourFactor := getPeakHourFactor localHour trip config
  let velocityFactor := getBookingVelocityFactor now trip
  let dynamicPrice := b * timeFactor * occupancyFactor * peakHourFactor * velocityFactor
  let maxPrice := b * config.maxPriceIncrease.getD (15/10)
  let minPrice := b * config.maxPriceDecrease.getD (7/10)
  let clamped := max minPrice (min maxPrice dynamicPrice)
  (jsRound (clamped / 5) : ℚ) * 5

/-- `shouldUpdatePrice`. -/
def shouldUpdatePrice (currentPrice newPrice threshold : ℚ) : Bool :=
  let changePercentage := |(newPrice - currentPrice) / currentPrice| * 100
  decide (threshold ≤ changePercentage)

/-- Trip of §8's second worked example: price 1200, no stored original price,
departing 72 hours from `now = 0`, 5 of 50 seats booked, created 12 hours
ago. -/
def exampleTrip815 : PricingTrip :=
  { id := "trip-815"
    departureTime := 72 * 3600000
    arrivalTime := 80 * 3600000
    price := 1200
    originalPrice := none
    status := .SCHEDULED
    availableSeats := 45
    totalSeats := 50
    bookings := 5
    createdAt := -(12 * 3600000) }

/-- A trip on which every pricing factor is neutral: departs in 24 hours at a
non-peak hour, occupancy 50%, created 48 hours ago, price 2. -/
def tinyPriceTrip : PricingTrip :=
  { id := "trip-tiny"
    departureTime := 24 * 3600000
    arrivalTime := 30 * 3600000
    price := 2
    originalPrice := none
    status := .SCHEDULED
    availableSeats := 5
    totalSeats := 10
    bookings := 5
    createdAt := -(48 * 3600000) }

/-! ## Stable sort

`Array.prototype.sort` with a consistent comparator is a stable sort; it is
modelled by insertion sort over the boolean relation `ltB a b` meaning "the
comparator orders `a` strictly before `b`". -/

section StableSort

variable {α : Type} (ltB : α → α → Bool)

/-- Insert `x` into `l`, after every element the comparator places strictly
before `x` (so before any element tied with `x`: stability). -/
def oInsert (x : α) : List α → List α
  | [] => [x]
  | y :: ys => if ltB y x then y :: oInsert x ys else x :: y :: ys

/-- Stable sort by the strict-precedence relation `ltB`. -/
def iSort : List α → List α
  | [] => []
  | x :: xs => oInsert ltB x (iSort xs)

end StableSort

/-! ## Trip records

The Prisma trip object passed to the content-based recommender and the
occupancy ranker (interface `Trip` of `occupancy.ts`), with the nested
`route`, `bus`, `operator` and `_count` projections flattened. -/

/-- Trip with route/bus/operator detail and booking count. -/
structure Trip where
  id : String
  routeId : String
  busId : String
  operatorId : String
  origin : String
  destination : String
  distance : ℚ
  duration : ℚ
  busType : String
  busNumber : String
  totalSeats : ℕ
  facilities : List String
  companyName : String
  isVerified : Bool
  createdAt : ℚ
  updatedAt : ℚ
  departureTime : ℚ
  arrivalTime : ℚ
  price : ℚ
  status : TripStatus
  availableSeats : ℕ
  bookings : ℕ
  contentScore : Option ℚ
  deriving DecidableEq

/-! ## src/algorithms/contentBased.ts -/

/-- `s.includes(sub)` on character lists: `startsWithChars l p` is "`l`
starts with `p`". -/
def startsWithChars : List Char → List Char → Bool
  | _, [] => true
  | [], _ :: _ => false
  | c :: cs, d :: ds => c = d && startsWithChars cs ds

/-- `hasSubChars l p` is "`p` occurs contiguously in `l`". -/
def hasSubChars : List Char → List Char → Bool
  | [], p => p.isEmpty
  | l@(_ :: t), p => startsWithChars l p || hasSubChars t p

/-- JavaScript `String.prototype.includes`. -/
def strIncludes (s sub : String) : Bool := hasSubChars s.data sub.data

/-- Truthiness of an optional string (`undefined` and `""` are falsy). -/
def truthyStr : Option String → Bool
  | none => false
  | some s => s ≠ ""

/-- Truthiness of an optional number (`undefined` and `0` are falsy). -/
def truthyQ : Option ℚ → Bool
  | none => false
  | some q => decide (q ≠ 0)

/-- `TripFeatures` from `contentBased.ts`. -/
structure TripFeatures where
  id : String
  origin : String
  destination : String
  busType : String
  price : ℚ
  departureTime : ℚ
  operatorRating : Option ℚ
  facilities : List String
  distance : Option ℚ
  duration : Option ℚ
  deriving DecidableEq

/-- The four `preferredTimeOfDay` buckets. -/
inductive TimeOfDay where
  | morning
  | afternoon
  | evening
  | night
  deriving DecidableEq

/-- `UserPreferences`; every field optional. -/
structure UserPreferences where
  preferredOrigins : Option (List String) := none
  preferredDestinations : Option (List String) := none
  preferredBusTypes : Option (List String) := none
  priceRange : Option (ℚ × ℚ) := none
  preferredTimeOfDay : Option TimeOfDay := none
  preferredFacilities : Option (List String) := none
  deriving DecidableEq

/-- The empty preference profile: no field set. -/
def emptyPreferences : UserPreferences := {}

/-- `TripFilters` from `src/types`. -/
structure TripFilters where
  origin : Option String := none
  destination : Option String := none
  date : Option String := none
  minPrice : Option ℚ := none
  maxPrice : Option ℚ := none
  busType : Option String := none
  useContentBased : Option Bool := none
  userId : Option String := none
  prioritizeOccupancy : Option Bool := none
  minOccupancyThreshold : Option ℚ := none
  deriving DecidableEq

/-- `calculateSimilarityScore`.  The running `(score, totalWeight)` pair is
threaded through the same sequence of guarded additions as the source.  In
the price-range branch, a zero-width range with the price outside it gives
`distanceFromRange / 0 = +∞` in JavaScript and hence a partial score of
`max(0, 1 - ∞) = 0`; the `maxDistance = 0` test encodes exactly that case. -/
def calculateSimilarityScore (localHour : ℚ → ℤ) (trip : TripFeatures)
    (preferences : UserPreferences) (filters : Option TripFilters) : ℚ :=
  let st : ℚ × ℚ := (0, 0)
  -- Origin preference (weight: 3)
  let st : ℚ × ℚ := match preferences.preferredOrigins with
    | some origins =>
      if origins.length ≠ 0 then
        if origins.any (fun origin => strIncludes trip.origin.toLower origin.toLower)
        then (st.1 + 3, st.2 + 3) else (st.1, st.2 + 3)
      else st
    | none => st
  -- Destination preference (weight: 3)
  let st : ℚ × ℚ := match preferences.preferredDestinations with
    | some dests =>
      if dests.length ≠ 0 then
        if dests.any (fun dest => strIncludes trip.destination.toLower dest.toLower)
        then (st.1 + 3, st.2 + 3) else (st.1, st.2 + 3)
      else st
    | none => st
  -- Bus type preference (weight: 2)
  let st : ℚ × ℚ := match preferences.preferredBusTypes with
    | some types =>
      if types.length ≠ 0 then
        if types.any (fun t => strIncludes trip.busType.toLower t.toLower)
        then (st.1 + 2, st.2 + 2) else (st.1, st.2 + 2)
      else st
    | none => st
  -- Price range preference (weight: 2)
  let st : ℚ × ℚ := match preferences.priceRange with
    | some priceRange =>
      if priceRange.1 ≤ trip.price ∧ trip.price ≤ priceRange.2 then (st.1 + 2, st.2 + 2)
      else
        let distanceFromRange := min |trip.price - priceRange.1| |trip.price - priceRange.2|
        let maxDistance := priceRange.2 - priceRange.1
        let partialScore := if maxDistance = 0 then 0 else max 0 (1 - distanceFromRange / maxDistance)
        (st.1 + 2 * partialScore, st.2 + 2)
    | none => st
  -- Time of day preference (weight: 1)
  let st : ℚ × ℚ := match preferences.preferredTimeOfDay with
    | some tod =>
      let departureHour := localHour trip.departureTime
      let matchesTimePreference :=
        match tod with
        | .morning => decide (6 ≤ departureHour) && decide (departureHour < 12)
        | .afternoon => decide (12 ≤ departureHour) && decide (departureHour < 18)
        | .evening => decide (18 ≤ departureHour) && decide (departureHour < 22)
        | .night => decide (22 ≤ departureHour) || decide (departureHour < 6)
      if matchesTimePreference then (st.1 + 1, st.2 + 1) else (st.1, st.2 + 1)
    | none => st
  -- Facilities preference (weight: 1.5)
  let st : ℚ × ℚ := match preferences.preferredFacilities with
    | some prefFacilities =>
      if prefFacilities.length ≠ 0 then
        let matchingFacilities := prefFacilities.filter (fun (facility : String) =>
          trip.facilities.any (fun tripFacility =>
            strIncludes tripFacility.toLower facility.toLower))
        let facilityScore := (matchingFacilities.length : ℚ) / prefFacilities.length
        (st.1 + (3/2) * facilityScore, st.2 + 3/2)
      else st
    | none => st
  -- Filter-based boost (weight: 2 per matching dimension)
  let st : ℚ × ℚ := match filters with
    | some f =>
      let st : ℚ × ℚ := if truthyStr f.origin &&
          strIncludes trip.origin.toLower ((f.origin.getD "").toLower)
        then (st.1 + 2, st.2 + 2) else st
      let st : ℚ × ℚ := if truthyStr f.destination &&
          strIncludes trip.destination.toLower ((f.destination.getD "").toLower)
        then (st.1 + 2, st.2 + 2) else st
      let st : ℚ × ℚ := if truthyStr f.busType &&
          strIncludes trip.busType.toLower ((f.busType.getD "").toLower)
        then (st.1 + 2, st.2 + 2) else st
      let st : ℚ × ℚ := if (truthyQ f.minPrice && decide (f.minPrice.getD 0 ≤ trip.price)) ||
          (truthyQ f.maxPrice && decide (trip.price ≤ f.maxPrice.getD 0))
        then (st.1 + 2, st.2 + 2) else st
      st
    | none => st
  -- Operator rating boost (weight: 1, normalized rating/5); a rating of 0 is falsy
  let st : ℚ × ℚ := match trip.operatorRating with
    | some r => if r ≠ 0 then (st.1 + 1 * (r / 5), st.2 + 1) else st
    | none => st
  if 0 < st.2 then st.1 / st.2 else 0

/-- Comparator-induced strict precedence for `getRecommendedTrips`'s sort
(`(a, b) => b.contentScore - a.contentScore`): `a` strictly before `b` iff
`a`'s score is larger.  Every trip entering this sort carries a score. -/
def csLt (a b : Trip) : Bool := decide (b.contentScore.getD 0 < a.contentScore.getD 0)

/-- `getRecommendedTrips`: score every candidate against the preferences,
attach the score, sort descending by score (stable) and truncate. -/
def getRecommendedTrips (localHour : ℚ → ℤ) (trips : List Trip)
    (userPreferences : UserPreferences) (filters : Option TripFilters)
    (limit : ℕ) : List Trip :=
  let scoredTrips := trips.map (fun trip =>
    let tripFeatures : TripFeatures :=
      { id := trip.id
        origin := trip.origin
        destination := trip.destination
        busType := trip.busType
        price := trip.price
        departureTime := trip.departureTime
        operatorRating := some (if trip.isVerified then 9/2 else 7/2)
        facilities := trip.facilities
        distance := some trip.distance
        duration := some trip.duration }
    { trip with
        contentScore := some (calculateSimilarityScore localHour tripFeatures userPreferences filters) })
  (iSort csLt scoredTrips).take limit

/-! ## src/algorithms/occupancy.ts -/

/-- `OccupancyConfig`; every field optional. -/
structure OccupancyConfig where
  minOccupancyThreshold : Option ℚ := none
  occupancyBoostFactor : Option ℚ := none
  lowOccupancyPenalty : Option ℚ := none
  balanceWithContentScore : Option Bool := none
  deriving DecidableEq

/-- `getBusOccupancy`: booking count over seat capacity, as a percentage
(JavaScript division, so `NaN` or `+∞` on a zero capacity). -/
def getBusOccupancy (trip : Trip) : JsNum :=
  (jsDivNN trip.bookings trip.totalSeats).mulQ 100

/-- `calculateOccupancyScore`. -/
def calculateOccupancyScore (occupancy : JsNum) (config : OccupancyConfig) : JsNum :=
  let occupancyBoostFactor := config.occupancyBoostFactor.getD (3/2)
  let lowOccupancyPenalty := config.lowOccupancyPenalty.getD (1/2)
  let score := occupancy.divQ 100
  let score :=
    if occupancy.gtQ 60 then score.mulQ occupancyBoostFactor
    else if occupancy.ltQ 20 then score.mulQ lowOccupancyPenalty
    else score
  score.minQ 1

/-- `filterByMinOccupancy` (a `NaN` occupancy fails the `>=` test and is
dropped). -/
def filterByMinOccupancy (trips : List Trip) (config : OccupancyConfig) : List Trip :=
  trips.filter (fun trip =>
    (getBusOccupancy trip).geQ (config.minOccupancyThreshold.getD 10))

/-- The record `sortByOccupancy` builds per trip: the spread trip plus its
`occupancy`, `occupancyScore` and `finalScore`. -/
structure ScoredTrip where
  trip : Trip
  occupancy : JsNum
  occupancyScore : JsNum
  finalScore : JsNum
  deriving DecidableEq

/-- Scoring step of `sortByOccupancy`: occupancy score, blended 60/40 with
the content score when `balanceWithContentScore` and the trip carries one. -/
def scoreTrip (config : OccupancyConfig) (trip : Trip) : ScoredTrip :=
  let occupancy := getBusOccupancy trip
  let occupancyScore := calculateOccupancyScore occupancy config
  let finalScore :=
    match trip.contentScore with
    | some contentScore =>
      if config.balanceWithContentScore.getD true then
        (JsNum.val (contentScore * (6/10))).add (occupancyScore.mulQ (4/10))
      else occupancyScore
    | none => occupancyScore
  ⟨trip, occupancy, occupancyScore, finalScore⟩

/-- Strict precedence of `sortByOccupancy`'s three-level comparator:
descending `finalScore`, then descending `occupancy`, then ascending
`departureTime`.  The `≠` tests mirror the source's `!==` guards (exact for
every non-`NaN` value; `NaN` scores cannot survive `filterByMinOccupancy`). -/
def sLt (a b : ScoredTrip) : Bool :=
  if a.finalScore ≠ b.finalScore then JsNum.gtN a.finalScore b.finalScore
  else if a.occupancy ≠ b.occupancy then JsNum.gtN a.occupancy b.occupancy
  else decide (a.trip.departureTime < b.trip.departureTime)

/-- `sortByOccupancy`: filter by minimum occupancy, score, stable-sort. -/
def sortByOccupancy (trips : List Trip) (config : OccupancyConfig) : List ScoredTrip :=
  let processedTrips := filterByMinOccupancy trips config
  let scoredTrips := processedTrips.map (scoreTrip config)
  iSort sLt scoredTrips

/-- First pass of `smartOccupancyFilter`: walk the sorted list, keeping a
trip when it has high occupancy or adds route/operator diversity, stopping at
`targetCount`.  `Math.ceil(targetCount / 3)` on a natural number is
`(targetCount + 2) / 3`; the used-routes set is a duplicate-free list (only
its size and membership are consulted) and the per-operator counter is a
function `String → ℕ`. -/
def firstPass (targetCount : ℕ) :
    List ScoredTrip → List ScoredTrip → List String → (String → ℕ) → List ScoredTrip
  | [], selectedTrips, _, _ => selectedTrips
  | trip :: rest, selectedTrips, usedRoutes, operatorCount =>
    if targetCount ≤ selectedTrips.length then selectedTrips
    else
      let routeKey := trip.trip.origin ++ "-" ++ trip.trip.destination
      let operatorTrips := operatorCount trip.trip.operatorId
      let occupancy := getBusOccupancy trip.trip
      let isHighOccupancy := occupancy.gtQ 40
      let routeDiversity := !(usedRoutes.contains routeKey) || decide (usedRoutes.length < 3)
      let operatorDiversity := decide (operatorTrips < (targetCount + 2) / 3)
      if isHighOccupancy || (routeDiversity && operatorDiversity) then
        firstPass targetCount rest (selectedTrips ++ [trip])
          (if usedRoutes.contains routeKey then usedRoutes else routeKey :: usedRoutes)
          (fun op => if op = trip.trip.operatorId then operatorTrips + 1 else operatorCount op)
      else
        firstPass targetCount rest selectedTrips usedRoutes operatorCount

/-- The triple of sort keys of a scored trip: `(finalScore, occupancy,
departureTime)`.  Two trips tie in the comparator exactly when their keys
are equal. -/
def sKey (s : ScoredTrip) : JsNum × JsNum × ℚ :=
  (s.finalScore, s.occupancy, s.trip.departureTime)

/-- Finiteness of the two numeric sort keys of a scored trip (holds for
every trip scored from a positive seat capacity). -/
def FinS (s : ScoredTrip) : Prop :=
  (∃ q, s.finalScore = .val q) ∧ (∃ q, s.occupancy = .val q)

/-- `smartOccupancyFilter`. -/
def smartOccupancyFilter (trips : List Trip) (targetCount : ℕ)
    (config : OccupancyConfig) : List ScoredTrip :=
  let sortedTrips := sortByOccupancy trips config
  if sortedTrips.length ≤ targetCount then sortedTrips
  else
    let selectedTrips := firstPass targetCount sortedTrips [] [] (fun _ => 0)
    if selectedTrips.length < targetCount then
      let remainingTrips := sortedTrips.filter (fun trip =>
        !(selectedTrips.any (fun selected => selected.trip.id == trip.trip.id)))
      selectedTrips ++ remainingTrips.take (targetCount - selectedTrips.length)
    else selectedTrips

/-! ## src/schedulers (pricing scheduler)

State machine of the `PricingScheduler` class: `isRunning` is the boolean
reentrancy guard, `intervalSet` whether the 15-minute `setInterval` handle is
live, `initialPending` whether the 30-second startup `setTimeout` has neither
fired nor been discarded, `initialActive` whether the startup run's batch is
in flight.  Batches started through the guard are tracked by `isRunning`
itself (the `finally` clause clears it on completion). -/

/-- Observable scheduler state. -/
structure SchedState where
  isRunning : Bool
  intervalSet : Bool
  initialPending : Bool
  initialActive : Bool
  deriving DecidableEq

/-- Number of pricing-update batches currently in flight. -/
def SchedState.activeBatches (s : SchedState) : ℕ :=
  (if s.isRunning then 1 else 0) + (if s.initialActive then 1 else 0)

/-- Freshly constructed scheduler. -/
def initState : SchedState := ⟨false, false, false, false⟩

/-- `runManualUpdate` up to its first suspension point: rejected with the
explicit error while the guard is held, otherwise takes the guard and starts
a batch. -/
def runManualUpdate (s : SchedState) : Except String SchedState :=
  if s.isRunning then .error "Pricing update is already running"
  else .ok { s with isRunning := true }

/-- Events the scheduler reacts to.  `start`/`stop`/`manual` are the public
methods; `tick` is the interval firing; `initialFire` is the 30-second
startup timeout firing; `batchDone`/`initialDone` are batch completions
(the `finally` clauses). -/
inductive SchedEvent where
  | start
  | tick
  | batchDone
  | manual
  | initialFire
  | initialDone
  | stop
  deriving DecidableEq

/-- One step of the scheduler.  Note from the source: `tick` checks and takes
the `isRunning` guard; `manual` does the same (throwing instead of skipping);
`initialFire` runs `updateTripPrices` with NO guard check and NO guard
update; `stop` clears only the interval handle — the startup timeout's
handle is never stored, so `stop` cannot clear it. -/
def applyEvent : SchedEvent → SchedState → SchedState
  | .start, s => { s with intervalSet := true, initialPending := true }
  | .tick, s =>
    if s.intervalSet then (if s.isRunning then s else { s with isRunning := true }) else s
  | .batchDone, s => { s with isRunning := false }
  | .manual, s =>
    match runManualUpdate s with
    | .ok s2 => s2
    | .error _ => s
  | .initialFire, s =>
    if s.initialPending then { s with initialPending := false, initialActive := true } else s
  | .initialDone, s => { s with initialActive := false }
  | .stop, s => { s with intervalSet := false }

/-- Run a sequence of events from a state. -/
def applyEvents (s : SchedState) (es : List SchedEvent) : SchedState :=
  es.foldl (fun s e => applyEvent e s) s

/-! ## Concrete instances used by counterexamples and witnesses -/

/-- Zero-capacity pricing trip with no bookings. -/
def zeroSeatsTrip : PricingTrip :=
  { id := "trip-zero"
    departureTime := 10 * 3600000
    arrivalTime := 16 * 3600000
    price := 500
    originalPrice := none
    status := .SCHEDULED
    availableSeats := 0
    totalSeats := 0
    bookings := 0
    createdAt := 0 }

/-- Trip features whose operator rating is the 4.5 that
`getRecommendedTrips` attaches to a verified operator. -/
def ratedFeatures : TripFeatures :=
  { id := "trip-rated"
    origin := "Kathmandu"
    destination := "Pokhara"
    busType := "Deluxe"
    price := 1500
    departureTime := 8 * 3600000
    operatorRating := some (9/2)
    facilities := ["WiFi", "AC"]
    distance := some 200
    duration := some 360 }

/-- Base trip record for the occupancy claims. -/
def baseTrip : Trip :=
  { id := "t1"
    routeId := "r1"
    busId := "b1"
    operatorId := "op1"
    origin := "Kathmandu"
    destination := "Pokhara"
    distance := 200
    duration := 360
    busType := "Deluxe"
    busNumber := "BA-1"
    totalSeats := 10
    facilities := ["WiFi"]
    companyName := "Alpha"
    isVerified := true
    createdAt := 0
    updatedAt := 0
    departureTime := 24 * 3600000
    arrivalTime := 30 * 3600000
    price := 1000
    status := .SCHEDULED
    availableSeats := 10
    bookings := 0
    contentScore := none }

/-- Candidate with 0% occupancy: dropped by `filterByMinOccupancy`. -/
def emptyBusTrip : Trip := { baseTrip with id := "t-empty", bookings := 0 }

/-- Candidate with 50% occupancy: survives `filterByMinOccupancy`. -/
def halfBusTrip : Trip := { baseTrip with id := "t-half", bookings := 5, availableSeats := 5 }

/-- Second half-full candidate on another route/operator, departing later. -/
def halfBusTripB : Trip :=
  { baseTrip with
      id := "t-half-b"
      operatorId := "op2"
      origin := "Lalitpur"
      destination := "Chitwan"
      departureTime := 26 * 3600000
      bookings := 5
      availableSeats := 5 }

end MahaBus

namespace MahaBus

/-! # Theorems -/

/-! ## Stable-sort lemmas -/

section StableSortLemmas

variable {α : Type} (ltB : α → α → Bool)

theorem oInsert_perm (x : α) (l : List α) : List.Perm (oInsert ltB x l) (x :: l) := by
  induction l with
  | nil => rfl
  | cons y ys ih =>
    by_cases h : ltB y x = true
    · simp only [oInsert, if_pos h]
      exact (ih.cons y).trans (List.Perm.swap x y ys)
    · simp only [oInsert, if_neg h]
      exact List.Perm.refl _

theorem iSort_perm (l : List α) : List.Perm (iSort ltB l) l := by
  induction l with
  | nil => rfl
  | cons x xs ih => exact (oInsert_perm ltB x (iSort ltB xs)).trans (ih.cons x)

theorem mem_oInsert {x a : α} {l : List α} : a ∈ oInsert ltB x l ↔ a = x ∨ a ∈ l := by
  rw [(oInsert_perm ltB x l).mem_iff, List.mem_cons]

theorem oInsert_pairwise (P : α → Prop)
    (asym : ∀ a b, P a → P b → ltB a b = true → ltB b a = false)
    (tr : ∀ a b c, P a → P b → P c → ltB b a = false → ltB c b = false → ltB c a = false)
    {x : α} {l : List α} (hx : P x) (hl : ∀ a ∈ l, P a)
    (hs : l.Pairwise (fun a b => ltB b a = false)) :
    (oInsert ltB x l).Pairwise (fun a b => ltB b a = false) := by
  induction l with
  | nil => simp [oInsert]
  | cons y ys ih =>
    have hy : P y := hl y (by simp)
    have hys : ∀ a ∈ ys, P a := fun a ha => hl a (by simp [ha])
    rw [List.pairwise_cons] at hs
    obtain ⟨hyz, hsy⟩ := hs
    by_cases h : ltB y x = true
    · simp only [oInsert, if_pos h]
      refine List.Pairwise.cons ?_ (ih hys hsy)
      intro z hz
      rcases (mem_oInsert ltB).mp hz with rfl | hz
      · exact asym y z hy hx h
      · exact hyz z hz
    · have h' : ltB y x = false := by simpa using h
      simp only [oInsert, if_neg h]
      refine List.Pairwise.cons ?_ (List.Pairwise.cons hyz hsy)
      intro z hz
      rcases List.mem_cons.mp hz with rfl | hz
      · exact h'
      · exact tr x y z hx hy (hys z hz) h' (hyz z hz)

theorem iSort_pairwise (P : α → Prop)
    (asym : ∀ a b, P a → P b → ltB a b = true → ltB b a = false)
    (tr : ∀ a b c, P a → P b → P c → ltB b a = false → ltB c b = false → ltB c a = false)
    {l : List α} (hl : ∀ a ∈ l, P a) :
    (iSort ltB l).Pairwise (fun a b => ltB b a = false) := by
  induction l with
  | nil => simp [iSort]
  | cons x xs ih =>
    have hxs : ∀ a ∈ xs, P a := fun a ha => hl a (by simp [ha])
    exact oInsert_pairwise ltB P asym tr (hl x (by simp))
      (fun a ha => hxs a ((iSort_perm ltB xs).mem_iff.mp ha)) (ih hxs)

theorem filter_oInsert (p : α → Bool) {x : α} (l : List α)
    (h : ∀ y, ltB y x = true → p x = true → p y = false) :
    (oInsert ltB x l).filter p = (x :: l).filter p := by
  induction l with
  | nil => rfl
  | cons y ys ih =>
    by_cases hyx : ltB y x = true
    · simp only [oInsert, if_pos hyx]
      by_cases hpx : p x = true
      · have hpy : p y = false := h y hyx hpx
        simp [List.filter_cons, hpy, hpx, ih]
      · have hpx' : p x = false := by simpa using hpx
        simp [List.filter_cons, hpx', ih]
    · simp only [oInsert, if_neg hyx]

theorem filter_iSort (p : α → Bool)
    (h : ∀ x y, ltB y x = true → p x = true → p y = false) (l : List α) :
    (iSort ltB l).filter p = l.filter p := by
  induction l with
  | nil => rfl
  | cons x xs ih =>
    simp only [iSort]
    rw [filter_oInsert ltB p (iSort ltB xs) (fun y => h x y), List.filter_cons,
      List.filter_cons, ih]

end StableSortLemmas

/-! ## Scheduler lemmas and claims C2, C8 -/

/-- C2 counterexample: the claim "at most one pricing-update batch is active
at any time ... for every run path, including the initial run after
`start()`" is false.  `start(); runManualUpdate(); <initial timeout fires>`
reaches a state with two batches in flight, because the 30-second startup
callback neither checks nor takes the `isRunning` guard. -/
theorem scheduler_two_batches_reachable :
    ¬ (∀ es : List SchedEvent, (applyEvents initState es).activeBatches ≤ 1) :=
  fun h => absurd (h [.start, .manual, .initialFire]) (by decide)

/-- C2 (amended): the reentrancy guard does protect the timer and manual
paths — while a guarded batch is running, `runManualUpdate` is rejected with
the explicit "already running" error and does not change the state, and a
timer tick is a no-op.  (The initial startup run is not covered by the
guard; see the counterexample.) -/
theorem scheduler_guard_rejects_concurrent (s : SchedState) (h : s.isRunning = true) :
    runManualUpdate s = .error "Pricing update is already running" ∧
    applyEvent .manual s = s ∧
    applyEvent .tick s = s := by
  refine ⟨by simp [runManualUpdate, h], by simp [applyEvent, runManualUpdate, h], ?_⟩
  simp [applyEvent, h]

/-- Witness for `scheduler_guard_rejects_concurrent` at a concrete running
state. -/
theorem scheduler_guard_rejects_concurrent_witness :
    (SchedState.mk true true false false).isRunning = true ∧
    (runManualUpdate ⟨true, true, false, false⟩ =
        .error "Pricing update is already running" ∧
      applyEvent .manual ⟨true, true, false, false⟩ = ⟨true, true, false, false⟩ ∧
      applyEvent .tick ⟨true, true, false, false⟩ = ⟨true, true, false, false⟩) :=
  ⟨rfl, scheduler_guard_rejects_concurrent ⟨true, true, false, false⟩ rfl⟩

/-- C8 counterexample: `stop()` does not cancel every pending timer — after
`start(); stop()` the 30-second startup timeout is still pending (its handle
was never stored) and firing it starts a batch. -/
theorem stop_does_not_cancel_initial_run :
    ¬ (∀ s : SchedState,
        (applyEvent .initialFire (applyEvent .stop s)).activeBatches ≤
          (applyEvent .stop s).activeBatches) :=
  fun h => absurd (h (applyEvent .start initState)) (by decide)

/-- C8 (amended): `stop()` clears the recurring interval, so a timer tick
after `stop()` is a no-op (no future scheduled run starts through the
interval) and a second `stop()` is a harmless no-op; but the pending initial
30-second startup run is NOT cancelled — `initialPending` survives
`stop()`. -/
theorem stop_cancels_interval_idempotently (s : SchedState) :
    (applyEvent .stop s).intervalSet = false ∧
    applyEvent .tick (applyEvent .stop s) = applyEvent .stop s ∧
    applyEvent .stop (applyEvent .stop s) = applyEvent .stop s ∧
    (applyEvent .stop s).initialPending = s.initialPending := by
  simp [applyEvent]

/-! ## Pricing claims C4, C7, C9, C1 -/

/-- C4 counterexample: for the spec's worked example (price 1200, early-bird
factor 0.85, low-demand factor 0.8, neutral peak and velocity factors) the
code does NOT return 815: the raw price 1200·0.85·0.8 = 816 is BELOW the
lower bound 1200·0.7 = 840, so it is clamped up to 840. -/
theorem exampleTrip815_returns_840_not_815 :
    calculateDynamicPrice 0 (fun _ => 12) exampleTrip815 {} = 840 ∧ (840 : ℚ) ≠ 815 := by
  constructor
  · norm_num [calculateDynamicPrice, getTimeToDepatureFactor, getOccupancyFactor,
      getPeakHourFactor, getBookingVelocityFactor, basePrice, jsDivNN, jsRound,
      JsNum.gtQ, JsNum.ltQ, defaultPeakHours, exampleTrip815, max_def, min_def]
  · norm_num

/-- C4 (amended): on the trip of the claim (price 1200, no stored original
price, departing in 72 h, 5/50 booked, non-peak hour, age 12 h) the default
configuration returns 840 — the raw product 816 lies below the minimum bound
`1200 * 0.7 = 840` and is clamped up before rounding. -/
theorem exampleTrip815_price :
    calculateDynamicPrice 0 (fun _ => 12) exampleTrip815 {} = 840 := by
  norm_num [calculateDynamicPrice, getTimeToDepatureFactor, getOccupancyFactor,
    getPeakHourFactor, getBookingVelocityFactor, basePrice, jsDivNN, jsRound,
    JsNum.gtQ, JsNum.ltQ, defaultPeakHours, exampleTrip815, max_def, min_def]

/-- C7 (confirmed): `shouldUpdatePrice` returns true exactly when the
absolute percentage change reaches the threshold (the comparison is `>=`),
and both boundary examples return true. -/
theorem shouldUpdatePrice_iff (currentPrice newPrice threshold : ℚ)
    (h1 : 0 < currentPrice) (h2 : 0 < newPrice) :
    (shouldUpdatePrice currentPrice newPrice threshold = true ↔
      threshold ≤ |(newPrice - currentPrice) / currentPrice| * 100) ∧
    shouldUpdatePrice 100 102 2 = true ∧
    shouldUpdatePrice 100 103 2 = true := by
  refine ⟨by simp [shouldUpdatePrice], ?_, ?_⟩ <;>
    norm_num [shouldUpdatePrice, abs_of_nonneg]

/-- Witness for `shouldUpdatePrice_iff` at the boundary input (100, 102, 2). -/
theorem shouldUpdatePrice_iff_witness :
    ((0 : ℚ) < 100 ∧ (0 : ℚ) < 102) ∧
    ((shouldUpdatePrice 100 102 2 = true ↔
        (2 : ℚ) ≤ |((102 : ℚ) - 100) / 100| * 100) ∧
      shouldUpdatePrice 100 102 2 = true ∧
      shouldUpdatePrice 100 103 2 = true) :=
  ⟨⟨by norm_num, by norm_num⟩, shouldUpdatePrice_iff 100 102 2 (by norm_num) (by norm_num)⟩

/-- C9 (confirmed): `calculateDynamicPrice` is total on zero-capacity trips.
With `totalSeats = 0` and no bookings the occupancy rate is `NaN`, so both
the occupancy and the velocity factor fall through to their neutral `1.0`
branches; with bookings the rate is `+∞` and classifies as high demand; in
every case the function returns a (finite) number. -/
theorem zero_seats_total (now : ℚ) (trip : PricingTrip) (config : PricingConfig)
    (h0 : trip.totalSeats = 0) :
    (trip.bookings = 0 →
      getOccupancyFactor trip config = 1 ∧ getBookingVelocityFactor now trip = 1) ∧
    (trip.bookings ≠ 0 →
      getOccupancyFactor trip config = config.highDemandMultiplier.getD (13/10)) ∧
    (∀ localHour : ℚ → ℤ, ∃ price : ℚ,
      calculateDynamicPrice now localHour trip config = price) := by
  refine ⟨fun hb => ?_, fun hb => ?_, fun localHour => ⟨_, rfl⟩⟩
  · constructor
    · simp [getOccupancyFactor, jsDivNN, h0, hb, JsNum.gtQ, JsNum.ltQ]
    · simp [getBookingVelocityFactor, jsDivNN, h0, hb, JsNum.gtQ, JsNum.ltQ]
  · simp [getOccupancyFactor, jsDivNN, h0, hb, JsNum.gtQ, JsNum.ltQ]

/-- Witness for `zero_seats_total` at a concrete zero-capacity trip. -/
theorem zero_seats_total_witness :
    zeroSeatsTrip.totalSeats = 0 ∧
    ((zeroSeatsTrip.bookings = 0 →
        getOccupancyFactor zeroSeatsTrip {} = 1 ∧
        getBookingVelocityFactor 0 zeroSeatsTrip = 1) ∧
      (zeroSeatsTrip.bookings ≠ 0 →
        getOccupancyFactor zeroSeatsTrip {} =
          ({} : PricingConfig).highDemandMultiplier.getD (13/10)) ∧
      (∀ localHour : ℚ → ℤ, ∃ price : ℚ,
        calculateDynamicPrice 0 localHour zeroSeatsTrip {} = price)) :=
  ⟨rfl, zero_seats_total 0 zeroSeatsTrip {} rfl⟩

/-- C1 counterexample: the returned price need not lie in
`[basePrice*maxPriceDecrease, basePrice*maxPriceIncrease]`.  On a price-2
trip with every factor neutral, the clamped price 2 rounds to the nearest
multiple of 5, which is 0 — strictly below the lower bound 1.4. -/
theorem tinyPriceTrip_price_below_lower_bound :
    calculateDynamicPrice 0 (fun _ => 12) tinyPriceTrip {} = 0 ∧
    ¬ (basePrice tinyPriceTrip * (({} : PricingConfig).maxPriceDecrease.getD (7/10)) ≤
        calculateDynamicPrice 0 (fun _ => 12) tinyPriceTrip {}) := by
  have h : calculateDynamicPrice 0 (fun _ => 12) tinyPriceTrip {} = 0 := by
    norm_num [calculateDynamicPrice, getTimeToDepatureFactor, getOccupancyFactor,
      getPeakHourFactor, getBookingVelocityFactor, basePrice, jsDivNN, jsRound,
      JsNum.gtQ, JsNum.ltQ, defaultPeakHours, tinyPriceTrip, max_def, min_def]
  refine ⟨h, ?_⟩
  rw [h]
  norm_num [basePrice, tinyPriceTrip]

/-- C1 (amended): for every trip and configuration whose bounds are not
inverted (`basePrice*maxPriceDecrease ≤ basePrice*maxPriceIncrease`), the
returned price is an integer multiple of 5 and lies within the clamp
interval widened by the rounding radius 2.5:
`[basePrice*maxPriceDecrease - 2.5, basePrice*maxPriceIncrease + 2.5]`.
(The pre-rounding price is clamped to the exact interval; rounding to the
nearest multiple of 5 can then leave it, as the counterexample shows.) -/
theorem calculateDynamicPrice_bounds (now : ℚ) (localHour : ℚ → ℤ)
    (trip : PricingTrip) (config : PricingConfig)
    (h : basePrice trip * config.maxPriceDecrease.getD (7/10) ≤
        basePrice trip * config.maxPriceIncrease.getD (15/10)) :
    (∃ k : ℤ, calculateDynamicPrice now localHour trip config = (k : ℚ) * 5) ∧
    basePrice trip * config.maxPriceDecrease.getD (7/10) - 5/2 ≤
      calculateDynamicPrice now localHour trip config ∧
    calculateDynamicPrice now localHour trip config ≤
      basePrice trip * config.maxPriceIncrease.getD (15/10) + 5/2 := by
  simp only [calculateDynamicPrice]
  set b := basePrice trip with hb
  set d := b * getTimeToDepatureFactor now trip config * getOccupancyFactor trip config *
    getPeakHourFactor localHour trip config * getBookingVelocityFactor now trip with hd
  set maxPrice := b * config.maxPriceIncrease.getD (15/10) with hmax
  set minPrice := b * config.maxPriceDecrease.getD (7/10) with hmin
  set c := max minPrice (min maxPrice d) with hc
  have h1 : minPrice ≤ c := le_max_left _ _
  have h2 : c ≤ maxPrice := max_le h (min_le_left _ _)
  have hf1 : (⌊c / 5 + 1/2⌋ : ℚ) ≤ c / 5 + 1/2 := Int.floor_le _
  have hf2 : c / 5 + 1/2 < (⌊c / 5 + 1/2⌋ : ℚ) + 1 := Int.lt_floor_add_one _
  refine ⟨⟨jsRound (c / 5), rfl⟩, ?_, ?_⟩ <;> simp only [jsRound] <;> linarith

/-- Witness for `calculateDynamicPrice_bounds` at the worked-example trip
under the default configuration. -/
theorem calculateDynamicPrice_bounds_witness :
    (basePrice exampleTrip815 * (({} : PricingConfig).maxPriceDecrease.getD (7/10)) ≤
      basePrice exampleTrip815 * (({} : PricingConfig).maxPriceIncrease.getD (15/10))) ∧
    ((∃ k : ℤ, calculateDynamicPrice 0 (fun _ => 12) exampleTrip815 {} = (k : ℚ) * 5) ∧
      basePrice exampleTrip815 * (({} : PricingConfig).maxPriceDecrease.getD (7/10)) - 5/2 ≤
        calculateDynamicPrice 0 (fun _ => 12) exampleTrip815 {} ∧
      calculateDynamicPrice 0 (fun _ => 12) exampleTrip815 {} ≤
        basePrice exampleTrip815 * (({} : PricingConfig).maxPriceIncrease.getD (15/10)) + 5/2) :=
  ⟨by norm_num [basePrice, exampleTrip815],
    calculateDynamicPrice_bounds 0 (fun _ => 12) exampleTrip815 {}
      (by norm_num [basePrice, exampleTrip815])⟩

/-! ## Content-based recommendation: claim C3 -/

/-- C3 counterexample: with empty preferences and no filters the similarity
score is NOT 0 for every trip — the operator-rating branch still fires.  On
a trip with operator rating 4.5 (the value `getRecommendedTrips` attaches to
every verified operator) the score is 0.9. -/
theorem similarity_score_rating_not_zero :
    calculateSimilarityScore (fun _ => 8) ratedFeatures emptyPreferences none = 9/10 ∧
    (9/10 : ℚ) ≠ 0 := by
  constructor
  · norm_num [calculateSimilarityScore, emptyPreferences, ratedFeatures]
  · norm_num

/-- C3 (amended): with empty preferences and no filters, the similarity
score equals `operatorRating / 5` (0 when the rating is unset or 0, since a
0 rating is falsy); consequently every trip scored through
`getRecommendedTrips` with empty preferences and no filters gets
`contentScore` 0.9 (verified operator) or 0.7 (unverified), never 0. -/
theorem similarity_score_empty_prefs (localHour : ℚ → ℤ) (trip : TripFeatures) :
    calculateSimilarityScore localHour trip emptyPreferences none =
      trip.operatorRating.getD 0 / 5 ∧
    ∀ (trips : List Trip) (limit : ℕ),
      (getRecommendedTrips localHour trips emptyPreferences none limit).all
        (fun t => t.contentScore ==
          some (if t.isVerified then 9/10 else 7/10)) = true := by
  have hscore : ∀ tf : TripFeatures,
      calculateSimilarityScore localHour tf emptyPreferences none =
        tf.operatorRating.getD 0 / 5 := by
    intro tf
    rcases h : tf.operatorRating with _ | r
    · simp [calculateSimilarityScore, emptyPreferences, h]
    · by_cases hr : r = 0
      · simp [calculateSimilarityScore, emptyPreferences, h, hr]
      · simp [calculateSimilarityScore, emptyPreferences, h, hr]
  refine ⟨hscore trip, fun trips limit => ?_⟩
  rw [List.all_eq_true]
  intro t ht
  simp only [getRecommendedTrips] at ht
  have ht2 := (iSort_perm csLt _).mem_iff.mp (List.mem_of_mem_take ht)
  obtain ⟨trip0, _, rfl⟩ := List.mem_map.mp ht2
  rw [hscore]
  by_cases hv : trip0.isVerified <;> simp [hv] <;> norm_num

/-! ## Occupancy score: claim C10 -/

/-- Value of `calculateOccupancyScore` on a finite occupancy. -/
theorem calcOcc_val_eq (q : ℚ) (config : OccupancyConfig) :
    calculateOccupancyScore (.val q) config =
      .val (min (if 60 < q then q / 100 * config.occupancyBoostFactor.getD (3/2)
        else if q < 20 then q / 100 * config.lowOccupancyPenalty.getD (1/2)
        else q / 100) 1) := by
  simp only [calculateOccupancyScore, JsNum.divQ, JsNum.gtQ, JsNum.ltQ, JsNum.mulQ,
    JsNum.minQ, decide_eq_true_eq]
  split_ifs <;> rfl

/-- C10 (confirmed): under the default occupancy configuration the occupancy
score is monotone non-decreasing in the occupancy percentage on [0, 100] and
lies in [0, 1]. -/
theorem occupancyScore_monotone (x y : ℚ) (hx : 0 ≤ x) (hxy : x ≤ y) (hy : y ≤ 100) :
    JsNum.qOf (calculateOccupancyScore (.val x) {}) ≤
      JsNum.qOf (calculateOccupancyScore (.val y) {}) ∧
    0 ≤ JsNum.qOf (calculateOccupancyScore (.val x) {}) ∧
    JsNum.qOf (calculateOccupancyScore (.val x) {}) ≤ 1 := by
  have hb : ({} : OccupancyConfig).occupancyBoostFactor.getD (3/2) = 3/2 := rfl
  have hp : ({} : OccupancyConfig).lowOccupancyPenalty.getD (1/2) = 1/2 := rfl
  rw [calcOcc_val_eq, calcOcc_val_eq, hb, hp]
  simp only [JsNum.qOf]
  refine ⟨min_le_min ?_ le_rfl, le_min ?_ (by norm_num), min_le_right _ _⟩
  · split_ifs <;> linarith
  · split_ifs <;> linarith

/-- Witness for `occupancyScore_monotone` at occupancies 10 and 50. -/
theorem occupancyScore_monotone_witness :
    ((0 : ℚ) ≤ 10 ∧ (10 : ℚ) ≤ 50 ∧ (50 : ℚ) ≤ 100) ∧
    (JsNum.qOf (calculateOccupancyScore (.val 10) {}) ≤
        JsNum.qOf (calculateOccupancyScore (.val 50) {}) ∧
      0 ≤ JsNum.qOf (calculateOccupancyScore (.val 10) {}) ∧
      JsNum.qOf (calculateOccupancyScore (.val 10) {}) ≤ 1) :=
  ⟨⟨by norm_num, by norm_num, by norm_num⟩,
    occupancyScore_monotone 10 50 (by norm_num) (by norm_num) (by norm_num)⟩

/-! ## Occupancy sort: claim C5 -/

/-- Comparator ties: equal key triples are never strictly ordered. -/
theorem sLt_of_key_eq {a b : ScoredTrip} (h : sKey a = sKey b) : sLt a b = false := by
  simp only [sKey, Prod.mk.injEq] at h
  obtain ⟨h1, h2, h3⟩ := h
  simp [sLt, h1, h2, h3]

/-- `sLt` on finite keys, as a boolean combination of rational
comparisons. -/
theorem sLt_val_eq {a b : ScoredTrip} {fa fb oa ob : ℚ}
    (hfa : a.finalScore = .val fa) (hfb : b.finalScore = .val fb)
    (hoa : a.occupancy = .val oa) (hob : b.occupancy = .val ob) :
    sLt a b = (decide (fb < fa) || (decide (fa = fb) &&
      (decide (ob < oa) || (decide (oa = ob) &&
        decide (a.trip.departureTime < b.trip.departureTime))))) := by
  simp only [sLt, hfa, hfb, hoa, hob, JsNum.gtN, ne_eq, JsNum.val.injEq]
  by_cases h1 : fa = fb
  · subst h1
    by_cases h2 : oa = ob
    · subst h2
      simp
    · simp [h2]
  · simp [h1]

/-- `sLt` on finite keys as a strict lexicographic order: larger
`finalScore` first, then larger `occupancy`, then earlier departure. -/
theorem sLt_true_iff {a b : ScoredTrip} (ha : FinS a) (hb : FinS b) :
    sLt a b = true ↔
      (JsNum.qOf b.finalScore < JsNum.qOf a.finalScore ∨
        (JsNum.qOf a.finalScore = JsNum.qOf b.finalScore ∧
          (JsNum.qOf b.occupancy < JsNum.qOf a.occupancy ∨
            (JsNum.qOf a.occupancy = JsNum.qOf b.occupancy ∧
              a.trip.departureTime < b.trip.departureTime)))) := by
  obtain ⟨⟨fa, hfa⟩, oa, hoa⟩ := ha
  obtain ⟨⟨fb, hfb⟩, ob, hob⟩ := hb
  rw [sLt_val_eq hfa hfb hoa hob]
  simp [hfa, hfb, hoa, hob, JsNum.qOf]

/-- Asymmetry of the comparator order on finite keys. -/
theorem sLt_asymm {a b : ScoredTrip} (ha : FinS a) (hb : FinS b)
    (h : sLt a b = true) : sLt b a = false := by
  rw [Bool.eq_false_iff]
  intro hc
  rw [sLt_true_iff ha hb] at h
  rw [sLt_true_iff hb ha] at hc
  rcases h with h | ⟨he, h⟩ <;> rcases hc with hc | ⟨hce, hc⟩
  · linarith
  · linarith
  · linarith
  · rcases h with h | ⟨he2, h⟩ <;> rcases hc with hc | ⟨hce2, hc⟩ <;> linarith

/-- Transitivity of the comparator's non-strict order on finite keys. -/
theorem sLt_leB_trans {a b c : ScoredTrip} (ha : FinS a) (hb : FinS b) (hc : FinS c)
    (h1 : sLt b a = false) (h2 : sLt c b = false) : sLt c a = false := by
  rw [Bool.eq_false_iff] at h1 h2 ⊢
  have h1' := (not_congr (sLt_true_iff hb ha)).mp h1
  have h2' := (not_congr (sLt_true_iff hc hb)).mp h2
  push_neg at h1' h2'
  obtain ⟨h1f, h1r⟩ := h1'
  obtain ⟨h2f, h2r⟩ := h2'
  intro hcc
  rw [sLt_true_iff hc ha] at hcc
  rcases hcc with hf | ⟨hfe, hrest⟩
  · linarith
  · have hbf : JsNum.qOf b.finalScore = JsNum.qOf a.finalScore := le_antisymm (by linarith) (by linarith)
    obtain ⟨h1o, h1d⟩ := h1r hbf
    obtain ⟨h2o, h2d⟩ := h2r (by linarith)
    rcases hrest with ho | ⟨hoe, hd⟩
    · linarith
    · have hbo : JsNum.qOf b.occupancy = JsNum.qOf a.occupancy := le_antisymm (by linarith) (by linarith)
      have hd1 := h1d hbo
      have hd2 := h2d (by linarith)
      linarith

/-- A `false` comparator verdict on finite keys yields the non-strict
three-level order. -/
theorem sLt_false_pos {a b : ScoredTrip} (ha : FinS a) (hb : FinS b)
    (h : sLt b a = false) :
    JsNum.qOf b.finalScore < JsNum.qOf a.finalScore ∨
      (JsNum.qOf a.finalScore = JsNum.qOf b.finalScore ∧
        (JsNum.qOf b.occupancy < JsNum.qOf a.occupancy ∨
          (JsNum.qOf a.occupancy = JsNum.qOf b.occupancy ∧
            a.trip.departureTime ≤ b.trip.departureTime))) := by
  rw [Bool.eq_false_iff] at h
  have h' := (not_congr (sLt_true_iff hb ha)).mp h
  push_neg at h'
  obtain ⟨h1, h2⟩ := h'
  rcases lt_or_eq_of_le h1 with h1' | h1'
  · exact Or.inl h1'
  · obtain ⟨h2o, h2d⟩ := h2 h1'
    rcases lt_or_eq_of_le h2o with h2o' | h2o'
    · exact Or.inr ⟨h1'.symm, Or.inl h2o'⟩
    · exact Or.inr ⟨h1'.symm, Or.inr ⟨h2o'.symm, h2d h2o'⟩⟩

/-- Every trip scored from a positive seat capacity has finite sort keys. -/
theorem finS_scoreTrip {config : OccupancyConfig} {t : Trip}
    (h : 0 < t.totalSeats) : FinS (scoreTrip config t) := by
  have hne : t.totalSeats ≠ 0 := Nat.pos_iff_ne_zero.mp h
  have hocc : getBusOccupancy t = .val ((t.bookings : ℚ) / t.totalSeats * 100) := by
    simp [getBusOccupancy, jsDivNN, hne, JsNum.mulQ]
  obtain ⟨r, hr⟩ : ∃ r, calculateOccupancyScore (getBusOccupancy t) config = .val r := by
    rw [hocc, calcOcc_val_eq]
    exact ⟨_, rfl⟩
  constructor
  · cases hcs : t.contentScore with
    | none => exact ⟨r, by simp only [scoreTrip, hcs]; exact hr⟩
    | some cs =>
      by_cases hbal : config.balanceWithContentScore.getD true = true
      · refine ⟨cs * (6/10) + r * (4/10), ?_⟩
        simp only [scoreTrip, hcs, if_pos hbal, hr, JsNum.mulQ, JsNum.add]
      · refine ⟨r, ?_⟩
        simp only [scoreTrip, hcs, if_neg hbal]
        exact hr
  · exact ⟨_, hocc⟩

/-- Helper: the sorted list is the stable sort of the scored, filtered
input. -/
theorem sortByOccupancy_def (trips : List Trip) (config : OccupancyConfig) :
    sortByOccupancy trips config =
      iSort sLt ((filterByMinOccupancy trips config).map (scoreTrip config)) := rfl

/-- Every element of the scored, filtered list has finite keys when every
input trip has a positive seat capacity. -/
theorem finS_of_mem_scored (trips : List Trip) (config : OccupancyConfig)
    (hpos : ∀ t ∈ trips, 0 < t.totalSeats) :
    ∀ s ∈ (filterByMinOccupancy trips config).map (scoreTrip config), FinS s := by
  intro s hs
  obtain ⟨t, ht, rfl⟩ := List.mem_map.mp hs
  have ht' : t ∈ trips := by
    simp only [filterByMinOccupancy] at ht
    exact List.mem_of_mem_filter ht
  exact finS_scoreTrip (hpos t ht')

/-- C5 (confirmed): on inputs with positive seat capacities,
`sortByOccupancy` returns a permutation of the scored surviving trips,
ordered by descending `finalScore`, then descending `occupancy`, then
ascending `departureTime`, and the sort is stable: trips with equal key
triples keep the order they have in the scored input. -/
theorem sortByOccupancy_ordered_stable (trips : List Trip) (config : OccupancyConfig)
    (hpos : ∀ t ∈ trips, 0 < t.totalSeats) :
    List.Perm (sortByOccupancy trips config)
        ((filterByMinOccupancy trips config).map (scoreTrip config)) ∧
    (sortByOccupancy trips config).Pairwise (fun a b =>
      JsNum.qOf b.finalScore < JsNum.qOf a.finalScore ∨
        (JsNum.qOf a.finalScore = JsNum.qOf b.finalScore ∧
          (JsNum.qOf b.occupancy < JsNum.qOf a.occupancy ∨
            (JsNum.qOf a.occupancy = JsNum.qOf b.occupancy ∧
              a.trip.departureTime ≤ b.trip.departureTime)))) ∧
    ∀ k : JsNum × JsNum × ℚ,
      (sortByOccupancy trips config).filter (fun s => decide (sKey s = k)) =
        ((filterByMinOccupancy trips config).map (scoreTrip config)).filter
          (fun s => decide (sKey s = k)) := by
  have hfin := finS_of_mem_scored trips config hpos
  refine ⟨?_, ?_, ?_⟩
  · rw [sortByOccupancy_def]
    exact iSort_perm _ _
  · rw [sortByOccupancy_def]
    have hfin2 : ∀ s ∈ iSort sLt ((filterByMinOccupancy trips config).map (scoreTrip config)),
        FinS s := fun s hs => hfin s ((iSort_perm _ _).mem_iff.mp hs)
    have hp := iSort_pairwise sLt FinS
      (fun a b pa pb => sLt_asymm pa pb)
      (fun a b c pa pb pc => sLt_leB_trans pa pb pc) hfin
    exact hp.imp_of_mem (fun {a b} hma hmb hr => sLt_false_pos (hfin2 a hma) (hfin2 b hmb) hr)
  · intro k
    rw [sortByOccupancy_def]
    apply filter_iSort
    intro x y hyx hpx
    rw [decide_eq_true_eq] at hpx
    by_contra hpy
    rw [Bool.not_eq_false, decide_eq_true_eq] at hpy
    rw [sLt_of_key_eq (hpy.trans hpx.symm)] at hyx
    exact Bool.false_ne_true hyx

/-- Witness for `sortByOccupancy_ordered_stable` on two half-full trips. -/
theorem sortByOccupancy_ordered_stable_witness :
    (∀ t ∈ ([halfBusTrip, halfBusTripB] : List Trip), 0 < t.totalSeats) ∧
    (List.Perm (sortByOccupancy [halfBusTrip, halfBusTripB] {})
        ((filterByMinOccupancy [halfBusTrip, halfBusTripB] {}).map (scoreTrip {})) ∧
      (sortByOccupancy [halfBusTrip, halfBusTripB] {}).Pairwise (fun a b =>
        JsNum.qOf b.finalScore < JsNum.qOf a.finalScore ∨
          (JsNum.qOf a.finalScore = JsNum.qOf b.finalScore ∧
            (JsNum.qOf b.occupancy < JsNum.qOf a.occupancy ∨
              (JsNum.qOf a.occupancy = JsNum.qOf b.occupancy ∧
                a.trip.departureTime ≤ b.trip.departureTime)))) ∧
      ∀ k : JsNum × JsNum × ℚ,
        (sortByOccupancy [halfBusTrip, halfBusTripB] {}).filter
            (fun s => decide (sKey s = k)) =
          (([halfBusTrip, halfBusTripB] : List Trip).filter
              (fun trip => (getBusOccupancy trip).geQ
                (({} : OccupancyConfig).minOccupancyThreshold.getD 10)) |>.map
            (scoreTrip {})).filter (fun s => decide (sKey s = k))) :=
  ⟨by decide, sortByOccupancy_ordered_stable [halfBusTrip, halfBusTripB] {} (by decide)⟩

/-! ## Smart occupancy filter: claim C6 -/

/-- The first pass only appends to the already-selected prefix, and the
appended trips form a sublist of the walked list. -/
theorem firstPass_append (targetCount : ℕ) :
    ∀ (l sel : List ScoredTrip) (routes : List String) (ops : String → ℕ),
      ∃ s2, firstPass targetCount l sel routes ops = sel ++ s2 ∧ s2.Sublist l := by
  intro l
  induction l with
  | nil => exact fun sel routes ops => ⟨[], by simp [firstPass], List.nil_sublist _⟩
  | cons t rest ih =>
    intro sel routes ops
    simp only [firstPass]
    split
    · exact ⟨[], by simp, List.nil_sublist _⟩
    · split
      · obtain ⟨s2, h1, h2⟩ := ih (sel ++ [t]) _ _
        exact ⟨t :: s2, by simpa using h1, List.Sublist.cons₂ t h2⟩
      · obtain ⟨s2, h1, h2⟩ := ih sel routes ops
        exact ⟨s2, h1, List.Sublist.cons t h2⟩

/-- The first pass never selects beyond `targetCount`. -/
theorem firstPass_length_le (targetCount : ℕ) :
    ∀ (l sel : List ScoredTrip) (routes : List String) (ops : String → ℕ),
      sel.length ≤ targetCount →
      (firstPass targetCount l sel routes ops).length ≤ targetCount := by
  intro l
  induction l with
  | nil => intro sel _ _ h; simpa [firstPass] using h
  | cons t rest ih =>
    intro sel routes ops h
    simp only [firstPass]
    split
    · exact h
    · next hg =>
      split
      · apply ih
        simp only [List.length_append, List.length_singleton]
        omega
      · exact ih _ _ _ h

/-- Dropping, from a list with pairwise-distinct keys, the elements whose
key occurs in a sublist `s` removes exactly `s.length` elements. -/
theorem length_filter_not_any {α κ : Type} [DecidableEq κ] (key : α → κ) :
    ∀ {s l : List α}, s.Sublist l → (l.map key).Nodup →
      (l.filter (fun a => !(s.any (fun b => key b == key a)))).length =
        l.length - s.length := by
  intro s l h
  induction h with
  | slnil => simp
  | @cons l1 l2 a h ih =>
    intro hnd
    rw [List.map_cons, List.nodup_cons] at hnd
    obtain ⟨ha, hnd2⟩ := hnd
    have hana : (l1.any (fun b => key b == key a)) = false := by
      rw [List.any_eq_false]
      intro x hx
      simp only [beq_iff_eq]
      intro hkey
      exact ha (hkey ▸ List.mem_map_of_mem key (h.subset hx))
    rw [List.filter_cons]
    simp only [hana, Bool.not_false, if_pos]
    rw [List.length_cons, ih hnd2]
    have := h.length_le
    simp only [List.length_cons]
    omega
  | @cons₂ l1 l2 a h ih =>
    intro hnd
    rw [List.map_cons, List.nodup_cons] at hnd
    obtain ⟨ha, hnd2⟩ := hnd
    rw [List.filter_cons]
    have h1 : ((a :: l1).any (fun b => key b == key a)) = true := by simp
    simp only [h1, Bool.not_true, Bool.false_eq_true, if_neg, not_false_eq_true]
    have hcongr : l2.filter (fun x => !((a :: l1).any (fun b => key b == key x))) =
        l2.filter (fun x => !(l1.any (fun b => key b == key x))) := by
      apply List.filter_congr
      intro x hx
      have hne : (key a == key x) = false := by
        simp only [beq_eq_false_iff_ne, ne_eq]
        intro hk
        exact ha (hk ▸ List.mem_map_of_mem key hx)
      simp [List.any_cons, hne]
    rw [hcongr, ih hnd2]
    simp [Nat.succ_sub_succ]

/-- Distinct input trip ids stay distinct through filtering, scoring and
sorting. -/
theorem sorted_ids_nodup (trips : List Trip) (config : OccupancyConfig)
    (h : (trips.map Trip.id).Nodup) :
    ((sortByOccupancy trips config).map (fun s => s.trip.id)).Nodup := by
  have h1 : (filterByMinOccupancy trips config).Sublist trips := List.filter_sublist _
  have h2 : ((filterByMinOccupancy trips config).map Trip.id).Nodup :=
    List.Nodup.sublist (h1.map Trip.id) h
  have h3 : (((filterByMinOccupancy trips config).map (scoreTrip config)).map
      (fun s => s.trip.id)) = (filterByMinOccupancy trips config).map Trip.id := by
    rw [List.map_map]
    rfl
  have h4 := (iSort_perm sLt ((filterByMinOccupancy trips config).map (scoreTrip config))).map
    (fun s => s.trip.id)
  rw [sortByOccupancy_def]
  exact h4.nodup_iff.mpr (h3 ▸ h2)

/-- C6 counterexample: `smartOccupancyFilter` can return fewer than
`min(targetCount, candidateCount)` trips, because `sortByOccupancy` first
drops every candidate below the minimum occupancy threshold.  A single
empty bus (0% occupancy) with `targetCount = 1` yields an empty result. -/
theorem smartOccupancyFilter_drops_all :
    smartOccupancyFilter [emptyBusTrip] 1 {} = [] ∧
    ¬ (min 1 ([emptyBusTrip] : List Trip).length ≤
        (smartOccupancyFilter [emptyBusTrip] 1 {}).length) := by
  have h : smartOccupancyFilter [emptyBusTrip] 1 {} = [] := by
    norm_num [smartOccupancyFilter, sortByOccupancy, filterByMinOccupancy, getBusOccupancy,
      jsDivNN, JsNum.mulQ, JsNum.geQ, iSort, emptyBusTrip, baseTrip]
  rw [h]
  simp

/-- C6 (amended): for candidate lists with pairwise-distinct trip ids,
`smartOccupancyFilter` returns exactly `min(targetCount, filteredCount)`
trips, where `filteredCount` counts the candidates that survive the
minimum-occupancy filter (so never more than `targetCount`, and never fewer
than `min(targetCount, filteredCount)`; the all-candidates lower bound of
the claim fails, as the counterexample shows). -/
theorem smartOccupancyFilter_card (trips : List Trip) (targetCount : ℕ)
    (config : OccupancyConfig) (h : (trips.map Trip.id).Nodup) :
    (smartOccupancyFilter trips targetCount config).length =
      min targetCount (filterByMinOccupancy trips config).length := by
  have hlen : (sortByOccupancy trips config).length =
      (filterByMinOccupancy trips config).length := by
    have := (iSort_perm sLt ((filterByMinOccupancy trips config).map
      (scoreTrip config))).length_eq
    rw [sortByOccupancy_def]
    simpa using this
  have hnd := sorted_ids_nodup trips config h
  simp only [smartOccupancyFilter]
  split
  · next hle =>
    rw [hlen] at hle
    rw [hlen]
    omega
  · next hgt =>
    rw [Nat.not_le] at hgt
    obtain ⟨s2, hfp, hsub⟩ :=
      firstPass_append targetCount (sortByOccupancy trips config) [] [] (fun _ => 0)
    have hself : (firstPass targetCount (sortByOccupancy trips config) [] []
        fun _ => 0).Sublist (sortByOccupancy trips config) := by
      rw [hfp]
      simpa using hsub
    have hlensel := firstPass_length_le targetCount (sortByOccupancy trips config) [] []
      (fun _ => 0) (by simp)
    have hrem := length_filter_not_any (fun s => s.trip.id) hself hnd
    split
    · next hlt =>
      rw [List.length_append, List.length_take, hrem]
      rw [hlen] at hgt
      omega
    · next hge =>
      rw [Nat.not_lt] at hge
      rw [hlen] at hgt
      omega

/-- Witness for `smartOccupancyFilter_card` on a single half-full trip. -/
theorem smartOccupancyFilter_card_witness :
    (([halfBusTrip] : List Trip).map Trip.id).Nodup ∧
    (smartOccupancyFilter [halfBusTrip] 1 {}).length =
      min 1 (filterByMinOccupancy [halfBusTrip] {}).length :=
  ⟨by simp, smartOccupancyFilter_card [halfBusTrip] 1 {} (by simp)⟩

end MahaBus
